import Mathlib

/-!
Verification of the github-tracker backend's OAuth / session / webhook logic.

The Python sources under `app/` are shallowly embedded as executable Lean
definitions.  External collaborators (the Redis TTL store, the MongoDB
driver, the `jose` JWT library and the `hmac`/`hashlib` digest functions)
are modelled at the interface the application code uses, with their
documented semantics; everything else is a direct translation of the
Python control flow.  Time is modelled as a natural number of seconds.
-/

/-- An HTTP error raised by a route handler, mirroring FastAPI's
`HTTPException(status_code, detail, headers)`. -/
structure HTTPEx where
  status : Nat
  detail : String
  headers : List (String × String)
deriving DecidableEq, Repr

/-- A Python `ValueError` carrying its message, as raised by the service
layer on malformed identifier input. -/
structure ValueErr where
  msg : String
deriving DecidableEq, Repr

/-! ## MongoDB ObjectId strings

`bson.ObjectId.is_valid` accepts a 24-character hexadecimal string; the
service layer validates every externally supplied id with it before use
and raises `ValueError` otherwise. -/

/-- Whether a character is a hexadecimal digit (either case), as accepted
by `bson.ObjectId`. -/
def isHexChar (c : Char) : Bool :=
  (('0' ≤ c) && (c ≤ '9')) || (('a' ≤ c) && (c ≤ 'f')) || (('A' ≤ c) && (c ≤ 'F'))

/-- Model of `bson.ObjectId.is_valid` on strings: exactly 24 hex characters. -/
def isValidObjectId (s : String) : Bool :=
  (s.data.length == 24) && s.data.all isHexChar

/-- Numeric value of a hex character. -/
def hexCharVal (c : Char) : Nat :=
  if ('0' ≤ c) && (c ≤ '9') then c.toNat - 48
  else if ('a' ≤ c) && (c ≤ 'f') then c.toNat - 87
  else c.toNat - 55

/-- Model of constructing `ObjectId(s)` from a valid hex string: object ids
are modelled as the natural number the 24 hex digits denote. -/
def oidOfString (s : String) : Nat :=
  s.data.foldl (fun acc c => 16 * acc + hexCharVal c) 0

/-! ## The Redis TTL store (external collaborator)

`app/core/state_manager.py` talks to Redis through three operations:
`SETEX key ttl val` (atomic set-with-expiry), `DEL key` (atomic delete
returning the number of keys removed, where an already-expired key counts
as absent) and `PING`.  A store is an association of keys to absolute
expiry instants plus a reachability flag; when the store is unreachable
every operation raises `RedisError`, modelled as `none`. -/

structure RedisStore where
  entries : List (String × Nat)
  reachable : Bool
deriving DecidableEq, Repr

/-- Whether `key` is currently live in the store: present with an expiry
instant strictly in the future. -/
def RedisStore.live (st : RedisStore) (key : String) (now : Nat) : Bool :=
  st.entries.any (fun p => (p.1 == key) && (now < p.2))

/-- `SETEX key ttl val`: replaces any binding of `key` by one expiring at
`now + ttl`.  Raises (`none`) when the store is unreachable. -/
def RedisStore.setex (st : RedisStore) (key : String) (ttl : Nat) (now : Nat) :
    Option RedisStore :=
  if st.reachable then
    some { st with entries := (key, now + ttl) :: st.entries.filter (fun p => p.1 != key) }
  else none

/-- `DEL key`: removes `key` and reports how many live keys were deleted
(0 when absent or already expired).  Raises (`none`) when unreachable. -/
def RedisStore.del (st : RedisStore) (key : String) (now : Nat) :
    Option (Nat × RedisStore) :=
  if st.reachable then
    some ((if st.live key now then 1 else 0),
      { st with entries := st.entries.filter (fun p => p.1 != key) })
  else none

/-! ## OAuthStateManager (`app/core/state_manager.py`) -/

/-- `OAuthStateManager.OAUTH_STATE_TTL`: state tokens live 600 seconds. -/
def OAUTH_STATE_TTL : Nat := 600

/-- `OAuthStateManager.STATE_KEY_PREFIX`. -/
def STATE_KEY_PREFIX : String := "oauth_state:"

/-- `OAuthStateManager._get_key`. -/
def stateKey (state : String) : String := STATE_KEY_PREFIX ++ state

/-- `OAuthStateManager.create_state`: `SETEX` the prefixed key with the
fixed TTL; any `RedisError` is caught and surfaced as `False` with the
store untouched. -/
def create_state (st : RedisStore) (state : String) (now : Nat) :
    Bool × RedisStore :=
  match st.setex (stateKey state) OAUTH_STATE_TTL now with
  | some st1 => (true, st1)
  | none => (false, st)

/-- `OAuthStateManager.verify_and_consume_state`: a single atomic `DEL`;
returns whether the deleted count was positive.  Any `RedisError` is
caught and surfaced as `False` with the store untouched. -/
def verify_and_consume_state (st : RedisStore) (state : String) (now : Nat) :
    Bool × RedisStore :=
  match st.del (stateKey state) now with
  | some (deleted_count, st1) => (decide (0 < deleted_count), st1)
  | none => (false, st)

/-! ### Lemmas about the state manager -/

theorem create_state_entries (st : RedisStore) (state : String) (now : Nat)
    (h : st.reachable = true) :
    create_state st state now =
      (true, { st with entries :=
        (stateKey state, now + OAUTH_STATE_TTL) ::
          st.entries.filter (fun p => p.1 != stateKey state) }) := by
  simp [create_state, RedisStore.setex, h]

theorem verify_and_consume_state_of_live (st : RedisStore) (state : String)
    (now : Nat) (hr : st.reachable = true)
    (hl : st.live (stateKey state) now = true) :
    verify_and_consume_state st state now =
      (true, { st with entries :=
        st.entries.filter (fun p => p.1 != stateKey state) }) := by
  simp [verify_and_consume_state, RedisStore.del, hr, hl]

theorem verify_and_consume_state_of_dead (st : RedisStore) (state : String)
    (now : Nat) (hl : st.live (stateKey state) now = false) :
    (verify_and_consume_state st state now).1 = false := by
  unfold verify_and_consume_state RedisStore.del
  cases hr : st.reachable <;> simp [hr, hl]

theorem live_filter_self (st : RedisStore) (key : String) (now : Nat) :
    RedisStore.live { st with entries := st.entries.filter (fun p => p.1 != key) }
      key now = false := by
  simp only [RedisStore.live, List.any_eq_false, List.mem_filter]
  intro p hp
  rcases hp with ⟨_, hne⟩
  simp only [bne_iff_ne, ne_eq] at hne
  simp [hne]

/-- C2: for every state token `t` held by a reachable store, `create_state t`
followed by `verify_and_consume_state t` within the 600-second window
returns true exactly once: the first consumption succeeds, any second
consumption of the same token returns false, consuming a token that was
never created returns false, and consuming after the TTL has elapsed
returns false. -/
theorem state_token_single_use
    (st : RedisStore) (t : String) (tCreate tUse : Nat)
    (hr : st.reachable = true) (hwin : tUse < tCreate + OAUTH_STATE_TTL) :
    (create_state st t tCreate).1 = true ∧
    (verify_and_consume_state (create_state st t tCreate).2 t tUse).1 = true ∧
    (∀ tAgain,
      (verify_and_consume_state
        (verify_and_consume_state (create_state st t tCreate).2 t tUse).2
        t tAgain).1 = false) ∧
    (∀ st' : RedisStore, (∀ p ∈ st'.entries, p.1 ≠ stateKey t) →
      ∀ tAny, (verify_and_consume_state st' t tAny).1 = false) ∧
    (∀ tLate, tCreate + OAUTH_STATE_TTL ≤ tLate →
      (verify_and_consume_state (create_state st t tCreate).2 t tLate).1 = false) := by
  have hcre := create_state_entries st t tCreate hr
  have hlive : RedisStore.live (create_state st t tCreate).2 (stateKey t) tUse = true := by
    rw [hcre]
    simp [RedisStore.live, hwin]
  refine ⟨by rw [hcre], ?_, ?_, ?_, ?_⟩
  · rw [verify_and_consume_state_of_live _ _ _ (by rw [hcre]; exact hr) hlive]
  · intro tAgain
    rw [verify_and_consume_state_of_live _ _ _ (by rw [hcre]; exact hr) hlive]
    exact verify_and_consume_state_of_dead _ _ _ (live_filter_self _ _ _)
  · intro st' habs tAny
    apply verify_and_consume_state_of_dead
    simp only [RedisStore.live, List.any_eq_false]
    intro p hp
    have := habs p hp
    simp [this]
  · intro tLate hl
    apply verify_and_consume_state_of_dead
    rw [hcre]
    simp only [RedisStore.live, List.any_eq_false]
    intro p hp
    rcases List.mem_cons.mp hp with hh | ht
    · subst hh
      simp only [beq_self_eq_true, Bool.true_and]
      simp [Nat.not_lt.mpr hl]
    · rcases List.mem_filter.mp ht with ⟨_, hne⟩
      simp only [bne_iff_ne, ne_eq] at hne
      simp [hne]

/-- Witness for `state_token_single_use` at a concrete reachable store. -/
theorem state_token_single_use_witness :
    (create_state ⟨[], true⟩ ("tok") 0).1 = true ∧
    (verify_and_consume_state (create_state ⟨[], true⟩ ("tok") 0).2 ("tok") 5).1 = true ∧
    (∀ tAgain,
      (verify_and_consume_state
        (verify_and_consume_state (create_state ⟨[], true⟩ ("tok") 0).2 ("tok") 5).2
        ("tok") tAgain).1 = false) ∧
    (∀ st' : RedisStore, (∀ p ∈ st'.entries, p.1 ≠ stateKey ("tok")) →
      ∀ tAny, (verify_and_consume_state st' ("tok") tAny).1 = false) ∧
    (∀ tLate, 0 + OAUTH_STATE_TTL ≤ tLate →
      (verify_and_consume_state (create_state ⟨[], true⟩ ("tok") 0).2 ("tok") tLate).1 = false) :=
  state_token_single_use ⟨[], true⟩ ("tok") 0 5 (by decide) (by decide)

/-! ## OAuth login route (`app/routes/auth.py`)

The route module keeps its own in-process state map: a module-level dict
`oauth_states : Dict[str, OAuthState]` with a TODO comment to replace it
with Redis, a module-level request counter for periodic cleanup, and the
constants below.  The Redis-backed `OAuthStateManager` is defined in
`app/core/state_manager.py` but no route imports or calls it, so we carry
the Redis store through the world unchanged to express that. -/

/-- `app/models/auth.py` `OAuthState`: the per-token record kept in the
in-process dict. -/
structure OAuthState where
  created_at : Nat
deriving DecidableEq, Repr

/-- `OAUTH_STATE_EXPIRY_MINUTES` in `app/routes/auth.py`. -/
def OAUTH_STATE_EXPIRY_MINUTES : Nat := 10

/-- `OAUTH_STATE_CLEANUP_INTERVAL` in `app/routes/auth.py`. -/
def OAUTH_STATE_CLEANUP_INTERVAL : Nat := 100

/-- The mutable module state of `app/routes/auth.py` plus the external
Redis store the spec says the login flow should use. -/
structure AuthWorld where
  oauth_states : List (String × OAuthState)
  request_count : Nat
  redis : RedisStore
deriving DecidableEq, Repr

/-- Python dict assignment `oauth_states[state] = v` on the association
list: replaces any existing binding. -/
def dictInsert (m : List (String × OAuthState)) (k : String) (v : OAuthState) :
    List (String × OAuthState) :=
  (k, v) :: m.filter (fun p => p.1 != k)

/-- `cleanup_expired_oauth_states`: drop entries older than
`OAUTH_STATE_EXPIRY_MINUTES * 60` seconds. -/
def cleanup_expired_oauth_states (m : List (String × OAuthState))
    (now : Nat) : List (String × OAuthState) :=
  m.filter (fun p => !(decide (OAUTH_STATE_EXPIRY_MINUTES * 60 < now - p.2.created_at)))

/-- `periodic_cleanup`: bump the request counter and run the cleanup every
`OAUTH_STATE_CLEANUP_INTERVAL` requests, resetting the counter. -/
def periodic_cleanup (w : AuthWorld) (now : Nat) : AuthWorld :=
  let rc := w.request_count + 1
  if rc % OAUTH_STATE_CLEANUP_INTERVAL == 0 then
    { w with oauth_states := cleanup_expired_oauth_states w.oauth_states now,
             request_count := 0 }
  else { w with request_count := rc }

/-- The dict returned on success by `github_login` (never reached, see
`github_login`). -/
structure LoginOk where
  authorization_url : String
  state : String
deriving DecidableEq, Repr

/-- Embedding of the `github_login` handler (`app/routes/auth.py`, lines
94-143).  The body runs `periodic_cleanup()`, generates a state token
(passed in here, since `secrets.token_urlsafe` is nondeterministic),
records it in the in-process `oauth_states` dict, and then evaluates
`GitHubService.get_authorization_url(state)`.  That expression calls the
instance method `get_authorization_url(self, state)` on the class with a
single positional argument, so Python raises `TypeError` before any URL
is built; the surrounding `except Exception` converts it into
`HTTPException(500, "Failed to generate authorization URL")`.  The
Redis-backed store is never consulted at any point. -/
def github_login (w : AuthWorld) (newState : String) (now : Nat) :
    Except HTTPEx LoginOk × AuthWorld :=
  let w1 := periodic_cleanup w now
  let w2 := { w1 with oauth_states := dictInsert w1.oauth_states newState ⟨now⟩ }
  (.error ⟨500, ("Failed to generate authorization URL"), []⟩, w2)

/-- C1, evaluated at the failing input: a login request `github_login`
with token "tok" against a world whose Redis store is unreachable.  The
handler does not fail because of the unreachable store and does not
persist the token in the shared TTL store: it records the token in the
in-process `oauth_states` dict, leaves the Redis store untouched, and
then returns 500 only because of the unbound
`GitHubService.get_authorization_url` call — the same outcome it produces
when the store is reachable. -/
theorem github_login_ignores_shared_store :
    (github_login ⟨[], 0, ⟨[], false⟩⟩ ("tok") 0).2.redis = ⟨[], false⟩ ∧
    (github_login ⟨[], 0, ⟨[], false⟩⟩ ("tok") 0).2.oauth_states = [(("tok"), ⟨0⟩)] ∧
    (github_login ⟨[], 0, ⟨[], false⟩⟩ ("tok") 0).1 =
      .error ⟨500, ("Failed to generate authorization URL"), []⟩ ∧
    (github_login ⟨[], 0, ⟨[], false⟩⟩ ("tok") 0).1 =
      (github_login ⟨[], 0, ⟨[], true⟩⟩ ("tok") 0).1 := by
  refine ⟨rfl, ?_, rfl, rfl⟩
  simp [github_login, periodic_cleanup, dictInsert, OAUTH_STATE_CLEANUP_INTERVAL]

/-! ## JWT session tokens (`app/core/security.py`, via the external `jose` library)

`jose.jwt.encode` signs a claim set with a secret key; `jose.jwt.decode`
re-checks the signature and (by default) validates the `exp` claim,
raising `JWTError` on a malformed token, a signature made with a
different key, or an elapsed expiry (`exp < now`).  A token is modelled
as either a well-formed claim set signed with some key, or a malformed
string. -/

/-- `app/models/token.py` `TokenPayload`: the claim set `{sub, exp, type}`. -/
structure TokenPayload where
  sub : String
  exp : Nat
  type : String
deriving DecidableEq, Repr

/-- A JWT as produced/consumed through the `jose` interface. -/
inductive Jwt where
  | signed (payload : TokenPayload) (key : String)
  | malformed (raw : String)
deriving DecidableEq, Repr

/-- Model of `jose.jwt.decode(token, key, algorithms)`: `none` stands for
a raised `JWTError` (malformed token, wrong signing key, or expired). -/
def jwtDecode (t : Jwt) (key : String) (now : Nat) : Option TokenPayload :=
  match t with
  | .malformed _ => none
  | .signed p k =>
    if k == key then (if p.exp < now then none else some p) else none

/-- The JWT-related settings from `app/core/config.py`. -/
structure JwtSettings where
  jwt_secret_key : String
  jwt_access_token_expire_minutes : Nat
  jwt_refresh_token_expire_days : Nat
deriving DecidableEq, Repr

/-- `create_access_token`: claim set `{sub, exp = now + minutes, type = "access"}`
signed with the configured secret; returns the token and its expiry. -/
def create_access_token (user_id : String) (s : JwtSettings) (now : Nat) :
    Jwt × Nat :=
  let expire := now + s.jwt_access_token_expire_minutes * 60
  (.signed ⟨user_id, expire, ("access")⟩ s.jwt_secret_key, expire)

/-- `create_refresh_token`: same, with `exp = now + days` and type "refresh". -/
def create_refresh_token (user_id : String) (s : JwtSettings) (now : Nat) :
    Jwt × Nat :=
  let expire := now + s.jwt_refresh_token_expire_days * 86400
  (.signed ⟨user_id, expire, ("refresh")⟩ s.jwt_secret_key, expire)

/-- `verify_token`: decode the token, then check the `type` claim against
the expected type.  A type mismatch raises
`HTTPException(401, "Invalid token type. Expected <type>")` inside the
`try`; any `JWTError` from decoding is caught and re-raised as
`HTTPException(401, "Could not validate credentials")` with a
`WWW-Authenticate` header. -/
def verify_token (t : Jwt) (token_type : String) (s : JwtSettings) (now : Nat) :
    Except HTTPEx TokenPayload :=
  match jwtDecode t s.jwt_secret_key now with
  | none =>
    .error ⟨401, ("Could not validate credentials"),
      [(("WWW-Authenticate"), ("Bearer"))]⟩
  | some token_data =>
    if token_data.type != token_type then
      .error ⟨401, ("Invalid token type. Expected ") ++ token_type, []⟩
    else .ok token_data

/-- C4: for every subject, a freshly created access token verifies as
"access" (at any instant up to its expiry) and yields the same subject,
while verifying the very same token as "refresh" fails with a 401 at
every instant; symmetrically, a refresh token is never accepted where
"access" is expected. -/
theorem access_token_type_discipline
    (user_id : String) (s : JwtSettings) (now tVerify : Nat)
    (hwin : tVerify ≤ now + s.jwt_access_token_expire_minutes * 60) :
    (∃ p, verify_token (create_access_token user_id s now).1 ("access") s tVerify
        = .ok p ∧ p.sub = user_id) ∧
    (∀ tAny, ∃ e, verify_token (create_access_token user_id s now).1 ("refresh") s tAny
        = .error e ∧ e.status = 401) ∧
    (∀ tAny, ∃ e, verify_token (create_refresh_token user_id s now).1 ("access") s tAny
        = .error e ∧ e.status = 401) := by
  refine ⟨⟨⟨user_id, now + s.jwt_access_token_expire_minutes * 60, ("access")⟩, ?_, rfl⟩, ?_, ?_⟩
  · simp [verify_token, create_access_token, jwtDecode, Nat.not_lt.mpr hwin]
  · intro tAny
    unfold verify_token create_access_token jwtDecode
    by_cases hexp : now + s.jwt_access_token_expire_minutes * 60 < tAny
    · exact ⟨⟨401, ("Could not validate credentials"),
        [(("WWW-Authenticate"), ("Bearer"))]⟩, by simp [hexp], rfl⟩
    · exact ⟨⟨401, ("Invalid token type. Expected refresh"), []⟩, by simp [hexp], rfl⟩
  · intro tAny
    unfold verify_token create_refresh_token jwtDecode
    by_cases hexp : now + s.jwt_refresh_token_expire_days * 86400 < tAny
    · exact ⟨⟨401, ("Could not validate credentials"),
        [(("WWW-Authenticate"), ("Bearer"))]⟩, by simp [hexp], rfl⟩
    · exact ⟨⟨401, ("Invalid token type. Expected access"), []⟩, by simp [hexp], rfl⟩

/-- Witness for `access_token_type_discipline` at a concrete subject and
settings. -/
theorem access_token_type_discipline_witness :
    (∃ p, verify_token (create_access_token ("u1") ⟨("k"), 15, 7⟩ 0).1 ("access") ⟨("k"), 15, 7⟩ 0
        = .ok p ∧ p.sub = ("u1")) ∧
    (∀ tAny, ∃ e, verify_token (create_access_token ("u1") ⟨("k"), 15, 7⟩ 0).1 ("refresh") ⟨("k"), 15, 7⟩ tAny
        = .error e ∧ e.status = 401) ∧
    (∀ tAny, ∃ e, verify_token (create_refresh_token ("u1") ⟨("k"), 15, 7⟩ 0).1 ("access") ⟨("k"), 15, 7⟩ tAny
        = .error e ∧ e.status = 401) :=
  access_token_type_discipline ("u1") ⟨("k"), 15, 7⟩ 0 0 (by decide)

/-- The wrong-type rejection message is distinct from the generic
credentials message, whatever the expected type is. -/
theorem invalid_type_msg_ne (ty : String) :
    ("Invalid token type. Expected ") ++ ty ≠ ("Could not validate credentials") := by
  intro h
  have h1 := congrArg String.data h
  rw [String.data_append] at h1
  have h2 := congrArg (List.take 29) h1
  rw [show (29 : Nat) = ("Invalid token type. Expected ").data.length from by decide] at h2
  rw [List.take_left] at h2
  exact absurd h2 (by decide)

/-- C5 counterexample: two rejected tokens whose 401 responses carry
different detail messages.  A valid-signature access token verified with
expected type "refresh" is rejected with
"Invalid token type. Expected refresh", while a malformed token is
rejected with "Could not validate credentials", so a caller can
distinguish the wrong-type sub-check from the signature/expiry/malformed
sub-checks, contrary to the claim. -/
theorem verify_token_message_counterexample :
    verify_token (.signed ⟨("u1"), 100, ("access")⟩ ("k")) ("refresh") ⟨("k"), 15, 7⟩ 0
      = .error ⟨401, ("Invalid token type. Expected refresh"), []⟩ ∧
    verify_token (.malformed ("zz")) ("refresh") ⟨("k"), 15, 7⟩ 0
      = .error ⟨401, ("Could not validate credentials"),
          [(("WWW-Authenticate"), ("Bearer"))]⟩ ∧
    ("Invalid token type. Expected refresh") ≠ ("Could not validate credentials") :=
  ⟨rfl, rfl, by decide⟩

/-- C5 as amended: every rejection by `verify_token` is a 401, and the
three decode failures (bad signature, expired, malformed) all carry the
same generic detail "Could not validate credentials", but a wrong type
tag carries the distinct detail "Invalid token type. Expected <type>",
so the wrong-type sub-check is distinguishable from the decode
sub-checks (which remain mutually indistinguishable). -/
theorem verify_token_rejection_messages
    (t : Jwt) (token_type : String) (s : JwtSettings) (now : Nat) :
    (jwtDecode t s.jwt_secret_key now = none →
      verify_token t token_type s now =
        .error ⟨401, ("Could not validate credentials"),
          [(("WWW-Authenticate"), ("Bearer"))]⟩) ∧
    (∀ p, jwtDecode t s.jwt_secret_key now = some p → p.type ≠ token_type →
      verify_token t token_type s now =
        .error ⟨401, ("Invalid token type. Expected ") ++ token_type, []⟩) ∧
    ("Invalid token type. Expected ") ++ token_type ≠ ("Could not validate credentials") := by
  refine ⟨?_, ?_, invalid_type_msg_ne token_type⟩
  · intro h
    simp [verify_token, h]
  · intro p hp hty
    simp [verify_token, hp, hty]

/-- Witness for `verify_token_rejection_messages` at a concrete malformed
token. -/
theorem verify_token_rejection_messages_witness :
    verify_token (.malformed ("zz")) ("access") ⟨("k"), 15, 7⟩ 0
      = .error ⟨401, ("Could not validate credentials"),
          [(("WWW-Authenticate"), ("Bearer"))]⟩ :=
  (verify_token_rejection_messages (.malformed ("zz")) ("access") ⟨("k"), 15, 7⟩ 0).1 rfl

/-! ## Webhook signature verification (`app/core/security.py`)

`verify_github_signature` parses the `X-Hub-Signature-256` header as
`"<algorithm>=<hexdigest>"` (Python `split("=", 1)`), accepts only
`sha256`, recomputes the HMAC-SHA256 hexdigest of the raw body with the
configured secret, and compares with `hmac.compare_digest` (functionally
string equality, computed in constant time).  The HMAC itself lives in
the external `hmac`/`hashlib` libraries; it is modelled as an ideal keyed
digest — a function of the secret and the exact bytes of the message that
is injective in the message for each secret, which is the standard
perfect-cryptography reading of the spec's single-byte-alteration
property. -/

/-- A raw byte. -/
abbrev Byte := Fin 256

/-- Lower-case hex digit for a value below 16. -/
def hexDigitChar (n : Nat) : Char :=
  if n < 10 then Char.ofNat (48 + n) else Char.ofNat (87 + n)

/-- The two hex characters of one byte. -/
def hexByteChars (b : Byte) : List Char :=
  [hexDigitChar (b.val / 16), hexDigitChar (b.val % 16)]

/-- Hex encoding of a byte string. -/
def hexOfBytes (bs : List Byte) : List Char :=
  bs.foldr (fun b acc => hexByteChars b ++ acc) []

/-- Ideal model of `hmac.new(secret, msg=body, digestmod=sha256).hexdigest()`:
a digest determined by the secret and the exact message bytes, injective
in the message for each fixed secret. -/
def hmacSha256Hex (secret : List Byte) (body : List Byte) : String :=
  ⟨hexOfBytes secret ++ ('.') :: hexOfBytes body⟩

/-- Python `s.split("=", 1)` restricted to the two-part outcome: `none`
when `s` has no "=" (a one-element split, rejected by the source). -/
def pySplitEq1 : List Char → Option (List Char × List Char)
  | [] => none
  | c :: cs =>
    if c = '=' then some ([], cs)
    else
      match pySplitEq1 cs with
      | some (a, b) => some (c :: a, b)
      | none => none

/-- `verify_github_signature(payload_body, signature_header)` with the
configured webhook secret made explicit (the source reads it from
settings).  Fails closed on a missing or empty header, a header without
"=", or an algorithm other than sha256. -/
def verify_github_signature (secret : List Byte) (payload_body : List Byte)
    (signature_header : Option String) : Bool :=
  match signature_header with
  | none => false
  | some h =>
    if h.data = [] then false
    else
      match pySplitEq1 h.data with
      | none => false
      | some (hash_algorithm, github_signature) =>
        if hash_algorithm ≠ ("sha256").data then false
        else hmacSha256Hex secret payload_body == String.mk github_signature

/-! ### Injectivity of the digest model -/

theorem hexDigitChar_inj : ∀ a b : Fin 16, hexDigitChar a.val = hexDigitChar b.val → a = b := by
  decide

theorem hexByteChars_inj (a b : Byte) (h : hexByteChars a = hexByteChars b) : a = b := by
  have hdiva : a.val / 16 < 16 := by omega
  have hdivb : b.val / 16 < 16 := by omega
  have hmoda : a.val % 16 < 16 := Nat.mod_lt _ (by norm_num)
  have hmodb : b.val % 16 < 16 := Nat.mod_lt _ (by norm_num)
  simp only [hexByteChars, List.cons.injEq, and_true] at h
  have h1 := hexDigitChar_inj ⟨a.val / 16, hdiva⟩ ⟨b.val / 16, hdivb⟩ h.1
  have h2 := hexDigitChar_inj ⟨a.val % 16, hmoda⟩ ⟨b.val % 16, hmodb⟩ h.2
  have e1 : a.val / 16 = b.val / 16 := congrArg Fin.val h1
  have e2 : a.val % 16 = b.val % 16 := congrArg Fin.val h2
  have : a.val = b.val := by omega
  exact Fin.ext this

theorem hexOfBytes_inj : ∀ xs ys : List Byte, hexOfBytes xs = hexOfBytes ys → xs = ys := by
  intro xs
  induction xs with
  | nil =>
    intro ys h
    cases ys with
    | nil => rfl
    | cons y ys => simp [hexOfBytes, hexByteChars] at h
  | cons x xs ih =>
    intro ys h
    cases ys with
    | nil => simp [hexOfBytes, hexByteChars] at h
    | cons y ys =>
      simp only [hexOfBytes, List.foldr_cons, hexByteChars, List.cons_append,
        List.nil_append, List.cons.injEq] at h
      obtain ⟨h1, h2, h3⟩ := h
      have hxy : x = y := hexByteChars_inj x y (by simp [hexByteChars, h1, h2])
      have hxs : xs = ys := ih ys h3
      rw [hxy, hxs]

theorem hmacSha256Hex_inj (secret : List Byte) (b1 b2 : List Byte)
    (h : hmacSha256Hex secret b1 = hmacSha256Hex secret b2) : b1 = b2 := by
  rw [String.ext_iff] at h
  simp only [hmacSha256Hex] at h
  have h2 := List.append_cancel_left h
  simp only [List.cons.injEq, true_and] at h2
  exact hexOfBytes_inj _ _ h2

/-! ### Header parsing -/

theorem pySplitEq1_sha256 (rest : List Char) :
    pySplitEq1 (('s') :: ('h') :: ('a') :: ('2') :: ('5') :: ('6') :: ('=') :: rest) =
      some ([('s'), ('h'), ('a'), ('2'), ('5'), ('6')], rest) := by
  simp [pySplitEq1]

theorem verify_github_signature_eval (secret body : List Byte) (d : String) :
    verify_github_signature secret body (some (("sha256=") ++ d)) =
      (hmacSha256Hex secret body == d) := by
  obtain ⟨dl⟩ := d
  have hdata : ((("sha256=")) ++ (⟨dl⟩ : String)).data = ("sha256=").data ++ dl :=
    String.data_append _ _
  have hne : ("sha256=").data ++ dl ≠ [] := by
    rw [show ("sha256=").data = ['s', 'h', 'a', '2', '5', '6', '='] from rfl]
    simp
  simp only [verify_github_signature, hdata, if_neg hne]
  simp [pySplitEq1_sha256]

/-- Replacing a list element by a different value yields a different list. -/
theorem set_ne_of_ne {α : Type} (l : List α) (i : Nat) (a : α)
    (hi : i < l.length) (hne : a ≠ l.get ⟨i, hi⟩) : l.set i a ≠ l := by
  intro h
  have h2 : (l.set i a)[i]? = l[i]? := by rw [h]
  rw [List.getElem?_set_self hi, List.getElem?_eq_getElem hi] at h2
  exact hne (by simpa [List.get_eq_getElem] using h2)

/-- C3: for every secret and raw body, a header carrying the correct
HMAC-SHA256 hexdigest ("sha256=" followed by the digest) verifies, and
altering any single byte of the hex digest, or any single byte of the
body, makes `verify_github_signature` return false (under the ideal,
per-secret-injective model of the external HMAC). -/
theorem webhook_signature_roundtrip (secret body : List Byte) :
    verify_github_signature secret body
      (some (("sha256=") ++ hmacSha256Hex secret body)) = true ∧
    (∀ (i : Nat) (c : Char) (hi : i < (hmacSha256Hex secret body).data.length),
      c ≠ (hmacSha256Hex secret body).data.get ⟨i, hi⟩ →
      verify_github_signature secret body
        (some (("sha256=") ++ String.mk ((hmacSha256Hex secret body).data.set i c))) = false) ∧
    (∀ (i : Nat) (b : Byte) (hi : i < body.length),
      b ≠ body.get ⟨i, hi⟩ →
      verify_github_signature secret (body.set i b)
        (some (("sha256=") ++ hmacSha256Hex secret body)) = false) := by
  refine ⟨?_, ?_, ?_⟩
  · rw [verify_github_signature_eval]
    simp
  · intro i c hi hne
    rw [verify_github_signature_eval]
    have hset : (hmacSha256Hex secret body).data.set i c ≠ (hmacSha256Hex secret body).data :=
      set_ne_of_ne _ _ _ hi hne
    have hd : hmacSha256Hex secret body ≠ String.mk ((hmacSha256Hex secret body).data.set i c) := by
      intro he
      rw [String.ext_iff] at he
      exact hset he.symm
    simp [beq_eq_false_iff_ne, hd]
  · intro i b hi hne
    rw [verify_github_signature_eval]
    have hbody : body.set i b ≠ body := set_ne_of_ne _ _ _ hi hne
    have hd : hmacSha256Hex secret (body.set i b) ≠ hmacSha256Hex secret body := by
      intro he
      exact hbody (hmacSha256Hex_inj secret _ _ he)
    simp [beq_eq_false_iff_ne, hd]

/-- Witness for `webhook_signature_roundtrip` at a concrete secret and
one-byte body. -/
theorem webhook_signature_roundtrip_witness :
    verify_github_signature [] [(0 : Byte)]
      (some (("sha256=") ++ hmacSha256Hex [] [(0 : Byte)])) = true ∧
    verify_github_signature [] [(0 : Byte)]
      (some (("sha256=") ++ String.mk ((hmacSha256Hex [] [(0 : Byte)]).data.set 0 ('x')))) = false ∧
    verify_github_signature [] ([(0 : Byte)].set 0 (1 : Byte))
      (some (("sha256=") ++ hmacSha256Hex [] [(0 : Byte)])) = false :=
  ⟨(webhook_signature_roundtrip [] [(0 : Byte)]).1,
   (webhook_signature_roundtrip [] [(0 : Byte)]).2.1 0 ('x') (by decide) (by decide),
   (webhook_signature_roundtrip [] [(0 : Byte)]).2.2 0 (1 : Byte) (by decide) (by decide)⟩

/-! ## The users collection (`app/services/user.py`)

MongoDB is modelled at the interface the service uses: `find_one` is
`List.find?` over the collection in natural order, `insert_one` appends,
and `update_one` with a `$set` document rewrites the first matching
document, reporting `modified_count = 1` exactly when the rewritten
document differs from the stored one (MongoDB does not count a no-op
overwrite as a modification). -/

/-- A document of the `users` collection. -/
structure UserDoc where
  _id : Nat
  github_id : Int
  username : String
  name : Option String
  avatar_url : Option String
  email : Option String
  profile_url : String
  github_access_token : String
  github_token_expires_at : Option Nat
  webhook_configured : Bool
  created_at : Nat
  updated_at : Nat
deriving DecidableEq, Repr

/-- `update_one(filter, {"$set": ...})`: rewrite the first document
matching `p` with `f` and report MongoDB's `modified_count`. -/
def mongoUpdateFirst {β : Type} [DecidableEq β] (p : β → Bool) (f : β → β) :
    List β → Nat × List β
  | [] => (0, [])
  | d :: ds =>
    if p d then ((if f d = d then 0 else 1), f d :: ds)
    else
      let r := mongoUpdateFirst p f ds
      (r.1, d :: r.2)

theorem mongoUpdateFirst_nomatch {β : Type} [DecidableEq β]
    (p : β → Bool) (f : β → β) :
    ∀ l : List β, (∀ x ∈ l, p x = false) → mongoUpdateFirst p f l = (0, l) := by
  intro l
  induction l with
  | nil => intro _; rfl
  | cons d ds ih =>
    intro h
    have hd := h d (List.mem_cons_self d ds)
    have ht := ih (fun x hx => h x (List.mem_cons_of_mem d hx))
    simp [mongoUpdateFirst, hd, ht]

theorem mongoUpdateFirst_match {β : Type} [DecidableEq β]
    (p : β → Bool) (f : β → β) (d : β) (post : List β) :
    ∀ pre : List β, (∀ x ∈ pre, p x = false) → p d = true →
      mongoUpdateFirst p f (pre ++ d :: post) =
        ((if f d = d then 0 else 1), pre ++ f d :: post) := by
  intro pre
  induction pre with
  | nil =>
    intro _ hd
    simp [mongoUpdateFirst, hd]
  | cons a pre ih =>
    intro h hd
    have ha := h a (List.mem_cons_self a pre)
    have ht := ih (fun x hx => h x (List.mem_cons_of_mem a hx)) hd
    simp [mongoUpdateFirst, ha, ht]

/-- `UserService.update_webhook_status(user_id, configured)`: validates
the id, then `$set`s both `webhook_configured` and `updated_at = now` on
the matching user, returning whether `modified_count > 0`. -/
def update_webhook_status (col : List UserDoc) (user_id : String)
    (configured : Bool) (now : Nat) : Except ValueErr (Bool × List UserDoc) :=
  if isValidObjectId user_id = false then
    .error ⟨("Invalid ObjectId: ") ++ user_id⟩
  else
    let r := mongoUpdateFirst (fun d => d._id == oidOfString user_id)
      (fun d => { d with webhook_configured := configured, updated_at := now }) col
    .ok (decide (0 < r.1), r.2)

/-- C6 counterexample: a stored user (internal id 1) whose
`webhook_configured` flag is already `true` but whose `updated_at` is 5;
requesting `update_webhook_status(_, true)` at time 6 still modifies the
document (the `$set` rewrites `updated_at`), so the call returns `true`,
not `false` as the claim requires for the already-equal case. -/
theorem update_webhook_status_counterexample :
    update_webhook_status
      [⟨1, 7, ("alice"), none, none, none, (""), ("tok"), none, true, 0, 5⟩]
      ("000000000000000000000001") true 6
      = .ok (true,
        [⟨1, 7, ("alice"), none, none, none, (""), ("tok"), none, true, 0, 6⟩]) := rfl

/-- C6 as amended: `update_webhook_status` returns false exactly when no
matching document was modified.  This covers "no user with that id", and
it covers "flag already equal" only in the corner case where the stored
`updated_at` also already equals the new timestamp; otherwise the `$set`
changes `updated_at`, the document counts as modified, and the call
returns true even though the flag was already equal.  The two false
cases remain indistinguishable by the boolean result. -/
theorem update_webhook_status_false_iff_unmodified
    (user_id : String) (configured : Bool) (now : Nat)
    (hvalid : isValidObjectId user_id = true) :
    (∀ col : List UserDoc, (∀ x ∈ col, x._id ≠ oidOfString user_id) →
      update_webhook_status col user_id configured now = .ok (false, col)) ∧
    (∀ (pre post : List UserDoc) (d : UserDoc),
      (∀ x ∈ pre, x._id ≠ oidOfString user_id) → d._id = oidOfString user_id →
      d.webhook_configured = configured → d.updated_at = now →
      update_webhook_status (pre ++ d :: post) user_id configured now
        = .ok (false, pre ++ d :: post)) ∧
    (∀ (pre post : List UserDoc) (d : UserDoc),
      (∀ x ∈ pre, x._id ≠ oidOfString user_id) → d._id = oidOfString user_id →
      (d.webhook_configured ≠ configured ∨ d.updated_at ≠ now) →
      update_webhook_status (pre ++ d :: post) user_id configured now
        = .ok (true,
            pre ++ { d with webhook_configured := configured, updated_at := now } :: post)) := by
  refine ⟨?_, ?_, ?_⟩
  · intro col habs
    have h0 := mongoUpdateFirst_nomatch
      (fun d : UserDoc => d._id == oidOfString user_id)
      (fun d => { d with webhook_configured := configured, updated_at := now })
      col (fun x hx => by simp [habs x hx])
    simp [update_webhook_status, hvalid, h0]
  · intro pre post d hpre hd hconf hupd
    have hm := mongoUpdateFirst_match
      (fun d : UserDoc => d._id == oidOfString user_id)
      (fun d => { d with webhook_configured := configured, updated_at := now })
      d post pre (fun x hx => by simp [hpre x hx]) (by simp [hd])
    have heq : ({ d with webhook_configured := configured, updated_at := now } : UserDoc) = d := by
      rw [← hconf, ← hupd]
    simp only [update_webhook_status, hvalid]
    rw [hm]
    simp [heq]
  · intro pre post d hpre hd hch
    have hm := mongoUpdateFirst_match
      (fun d : UserDoc => d._id == oidOfString user_id)
      (fun d => { d with webhook_configured := configured, updated_at := now })
      d post pre (fun x hx => by simp [hpre x hx]) (by simp [hd])
    have hne : ({ d with webhook_configured := configured, updated_at := now } : UserDoc) ≠ d := by
      intro he
      rcases hch with hc | hu
      · exact hc (congrArg UserDoc.webhook_configured he).symm
      · exact hu (congrArg UserDoc.updated_at he).symm
    simp only [update_webhook_status, hvalid]
    rw [hm]
    simp [hne]

/-- Witness for `update_webhook_status_false_iff_unmodified`: the
not-found case on an empty collection. -/
theorem update_webhook_status_false_iff_unmodified_witness :
    update_webhook_status [] ("000000000000000000000001") true 6 = .ok (false, []) :=
  (update_webhook_status_false_iff_unmodified
    ("000000000000000000000001") true 6 (by decide)).1 [] (by simp)

/-! ## `UserService.create_or_update_user` (`app/services/user.py`) -/

/-- The `github_user` mapping returned by the upstream profile call; a
key that may be absent is an `Option`. -/
structure GithubUser where
  id : Option Int
  login : Option String
  name : Option String
  avatar_url : Option String
  email : Option String
  html_url : Option String
deriving DecidableEq, Repr

/-- The `user_data` dict the service builds and `$set`s: profile fields,
token, expiry and `updated_at` — it contains neither `created_at` nor
`webhook_configured` nor `_id`. -/
def applyUserData (gid : Int) (login : String) (gu : GithubUser) (tok : String)
    (expires : Option Nat) (now : Nat) (d : UserDoc) : UserDoc :=
  { d with github_id := gid, username := login, name := gu.name,
           avatar_url := gu.avatar_url, email := gu.email,
           profile_url := gu.html_url.getD (""),
           github_access_token := tok, github_token_expires_at := expires,
           updated_at := now }

/-- `create_or_update_user(github_user, github_token, token_expires_at)`:
validates that `id` and `login` are present (else `ValueError`), looks up
the user by `github_id`; if found, `$set`s `user_data` on that document
and returns it rebuilt from `user_data` plus the existing `_id`,
`created_at` and `webhook_configured`; if absent, inserts a fresh
document with `webhook_configured = false` and `created_at = now`.
`freshOid` stands for the ObjectId MongoDB assigns on insert. -/
def create_or_update_user (col : List UserDoc) (github_user : GithubUser)
    (github_token : String) (token_expires_at : Option Nat) (now : Nat)
    (freshOid : Nat) : Except ValueErr (UserDoc × List UserDoc) :=
  match github_user.id, github_user.login with
  | some gid, some login =>
    match col.find? (fun d => d.github_id == gid) with
    | some existing =>
      let r := mongoUpdateFirst (fun d => d._id == existing._id)
        (applyUserData gid login github_user github_token token_expires_at now) col
      .ok (applyUserData gid login github_user github_token token_expires_at now existing, r.2)
    | none =>
      let created : UserDoc :=
        { _id := freshOid, github_id := gid, username := login,
          name := github_user.name, avatar_url := github_user.avatar_url,
          email := github_user.email, profile_url := github_user.html_url.getD (""),
          github_access_token := github_token,
          github_token_expires_at := token_expires_at,
          webhook_configured := false, created_at := now, updated_at := now }
      .ok (created, col ++ [created])
  | _, _ => .error ⟨("github_user must contain id and login fields")⟩

theorem find?_append_of_none {α : Type} (p : α → Bool) (l₂ : List α) :
    ∀ l₁ : List α, l₁.find? p = none → (l₁ ++ l₂).find? p = l₂.find? p := by
  intro l₁
  induction l₁ with
  | nil => intro _; rfl
  | cons a l ih =>
    intro h
    rw [List.find?_cons] at h
    cases hp : p a with
    | true => rw [hp] at h; exact absurd h (by simp)
    | false =>
      rw [hp] at h
      rw [List.cons_append, List.find?_cons_of_neg _ (by simp [hp]), ih h]

/-- C8: calling `create_or_update_user` twice with the same upstream
numeric id `g` but different profile fields updates the stored record in
place: no duplicate is created (the collection keeps its length and holds
exactly one record for `g`), and the record's internal id, `created_at`
and `webhook_configured` flag are unchanged by the second call, while the
profile fields, token, expiry and `updated_at` are overwritten with the
second call's values. -/
theorem upsert_user_updates_in_place
    (col : List UserDoc) (gu1 gu2 : GithubUser) (g : Int) (l1 l2 : String)
    (tok1 tok2 : String) (e1 e2 : Option Nat) (t1 t2 : Nat) (oid1 oid2 : Nat)
    (hid1 : gu1.id = some g) (hl1 : gu1.login = some l1)
    (hid2 : gu2.id = some g) (hl2 : gu2.login = some l2)
    (hnew : ∀ d ∈ col, d.github_id ≠ g)
    (hfresh : ∀ d ∈ col, d._id ≠ oid1) :
    ∃ u1 col1 u2 col2,
      create_or_update_user col gu1 tok1 e1 t1 oid1 = .ok (u1, col1) ∧
      create_or_update_user col1 gu2 tok2 e2 t2 oid2 = .ok (u2, col2) ∧
      col2.length = col1.length ∧
      (col2.filter (fun d => d.github_id == g)).length = 1 ∧
      col2.find? (fun d => d.github_id == g) = some u2 ∧
      u2._id = u1._id ∧ u2.created_at = u1.created_at ∧
      u2.webhook_configured = u1.webhook_configured ∧
      u2.username = l2 ∧ u2.name = gu2.name ∧ u2.avatar_url = gu2.avatar_url ∧
      u2.email = gu2.email ∧ u2.github_access_token = tok2 ∧
      u2.github_token_expires_at = e2 ∧ u2.updated_at = t2 := by
  have hnone : col.find? (fun d => d.github_id == g) = none :=
    List.find?_eq_none.mpr (fun x hx => by simp [hnew x hx])
  set u1 : UserDoc :=
    { _id := oid1, github_id := g, username := l1,
      name := gu1.name, avatar_url := gu1.avatar_url,
      email := gu1.email, profile_url := gu1.html_url.getD (""),
      github_access_token := tok1, github_token_expires_at := e1,
      webhook_configured := false, created_at := t1, updated_at := t1 } with hu1
  have hcall1 : create_or_update_user col gu1 tok1 e1 t1 oid1 = .ok (u1, col ++ [u1]) := by
    simp [create_or_update_user, hid1, hl1, hnone, hu1]
  set u2 : UserDoc := applyUserData g l2 gu2 tok2 e2 t2 u1 with hu2
  have hfind1 : (col ++ [u1]).find? (fun d => d.github_id == g) = some u1 := by
    rw [find?_append_of_none _ _ col hnone]
    exact List.find?_cons_of_pos _ (by simp [hu1])
  have hupd := mongoUpdateFirst_match
    (fun d : UserDoc => d._id == u1._id)
    (applyUserData g l2 gu2 tok2 e2 t2) u1 [] col
    (fun x hx => by
      have := hfresh x hx
      simp only [hu1] at *
      simp [this])
    (by simp)
  have hcall2 : create_or_update_user (col ++ [u1]) gu2 tok2 e2 t2 oid2
      = .ok (u2, col ++ [u2]) := by
    simp only [create_or_update_user, hid2, hl2, hfind1]
    rw [hupd]
  refine ⟨u1, col ++ [u1], u2, col ++ [u2], hcall1, hcall2, by simp, ?_, ?_, ?_⟩
  · rw [List.filter_append]
    have hc : col.filter (fun d => d.github_id == g) = [] :=
      List.filter_eq_nil_iff.mpr (fun x hx => by simp [hnew x hx])
    rw [hc]
    simp [hu2, applyUserData]
  · rw [find?_append_of_none _ _ col hnone]
    exact List.find?_cons_of_pos _ (by simp [hu2, applyUserData])
  · simp [hu2, hu1, applyUserData]

/-- Witness for `upsert_user_updates_in_place` on an empty collection and
two concrete profiles. -/
theorem upsert_user_updates_in_place_witness :
    ∃ u1 col1 u2 col2,
      create_or_update_user [] ⟨some 7, some ("alice"), none, none, none, none⟩
        ("t1") none 10 1 = .ok (u1, col1) ∧
      create_or_update_user col1 ⟨some 7, some ("alicia"), some ("A"), none, none, none⟩
        ("t2") none 20 2 = .ok (u2, col2) ∧
      col2.length = col1.length ∧
      (col2.filter (fun d => d.github_id == 7)).length = 1 ∧
      col2.find? (fun d => d.github_id == 7) = some u2 ∧
      u2._id = u1._id ∧ u2.created_at = u1.created_at ∧
      u2.webhook_configured = u1.webhook_configured ∧
      u2.username = ("alicia") ∧ u2.name = some ("A") ∧ u2.avatar_url = none ∧
      u2.email = none ∧ u2.github_access_token = ("t2") ∧
      u2.github_token_expires_at = none ∧ u2.updated_at = 20 :=
  upsert_user_updates_in_place [] ⟨some 7, some ("alice"), none, none, none, none⟩
    ⟨some 7, some ("alicia"), some ("A"), none, none, none⟩ 7 ("alice") ("alicia")
    ("t1") ("t2") none none 10 20 1 2 rfl rfl rfl rfl
    (by simp) (by simp)

/-! ## The webhook_notifications collection (`app/services/webhook.py`)

The stored payload is an arbitrary structured JSON document that the
service never interprets; its type is kept abstract as a parameter. -/

/-- A document of the `webhook_notifications` collection. -/
structure NotifDoc (α : Type) where
  _id : Nat
  user_id : Nat
  repository : String
  event_type : String
  action : Option String
  payload : α
  processed : Bool
  created_at : Nat
  processed_at : Option Nat
deriving DecidableEq, Repr

/-- Insertion step of sorting by `created_at` descending (the
`sort("created_at", -1)` of the Mongo query). -/
def insertByCreatedDesc {α : Type} (d : NotifDoc α) :
    List (NotifDoc α) → List (NotifDoc α)
  | [] => [d]
  | e :: es =>
    if e.created_at < d.created_at then d :: e :: es
    else e :: insertByCreatedDesc d es

/-- Sort a result set by `created_at` descending. -/
def sortByCreatedDesc {α : Type} : List (NotifDoc α) → List (NotifDoc α)
  | [] => []
  | d :: ds => insertByCreatedDesc d (sortByCreatedDesc ds)

theorem length_insertByCreatedDesc {α : Type} (d : NotifDoc α) :
    ∀ l : List (NotifDoc α), (insertByCreatedDesc d l).length = l.length + 1 := by
  intro l
  induction l with
  | nil => rfl
  | cons e es ih =>
    by_cases h : e.created_at < d.created_at
    · simp [insertByCreatedDesc, h]
    · simp [insertByCreatedDesc, h, ih]

theorem length_sortByCreatedDesc {α : Type} :
    ∀ l : List (NotifDoc α), (sortByCreatedDesc l).length = l.length := by
  intro l
  induction l with
  | nil => rfl
  | cons d ds ih => simp [sortByCreatedDesc, length_insertByCreatedDesc, ih]

/-- The limit constraint of `get_user_notifications`: below 1 falls back
to the default 50, above 100 is capped at 100. -/
def clampedLimit (limit : Int) : Int :=
  if limit < 1 then 50 else if 100 < limit then 100 else limit

/-- The skip constraint of `get_user_notifications`: negative becomes 0. -/
def clampedSkip (skip : Int) : Int :=
  if skip < 0 then 0 else skip

/-- `WebhookService.get_user_notifications(user_id, processed, limit, skip)`:
validates the id, clamps `limit` and `skip`, filters by owner (and by
`processed` when the filter is set), sorts newest-created-first, skips
and takes. -/
def get_user_notifications {α : Type} (col : List (NotifDoc α)) (user_id : String)
    (processed : Option Bool) (limit : Int) (skip : Int) :
    Except ValueErr (List (NotifDoc α)) :=
  if isValidObjectId user_id = false then
    .error ⟨("Invalid ObjectId: ") ++ user_id⟩
  else
    let q := fun (d : NotifDoc α) =>
      (d.user_id == oidOfString user_id) &&
        (match processed with
         | none => true
         | some b => d.processed == b)
    .ok (((sortByCreatedDesc (col.filter q)).drop (clampedSkip skip).toNat).take
      (clampedLimit limit).toNat)

/-- C7: `get_user_notifications` clamps `limit` into [1,100] and never
rejects an out-of-range value: for every limit the effective limit is
between 1 and 100 and the call succeeds with at most 100 results; a call
with `limit = 200` returns at most 100 results; and a call with
`limit = 0` returns exactly what `limit = 50` returns. -/
theorem list_for_user_limit_clamped {α : Type} (col : List (NotifDoc α))
    (user_id : String) (processed : Option Bool) (skip : Int)
    (hvalid : isValidObjectId user_id = true) :
    (∀ limit : Int, 1 ≤ clampedLimit limit ∧ clampedLimit limit ≤ 100 ∧
      ∃ res, get_user_notifications col user_id processed limit skip = .ok res ∧
        res.length ≤ 100) ∧
    get_user_notifications col user_id processed 0 skip =
      get_user_notifications col user_id processed 50 skip ∧
    (∃ res, get_user_notifications col user_id processed 200 skip = .ok res ∧
      res.length ≤ 100) := by
  have hok : ∀ limit : Int, 1 ≤ clampedLimit limit ∧ clampedLimit limit ≤ 100 ∧
      ∃ res, get_user_notifications col user_id processed limit skip = .ok res ∧
        res.length ≤ 100 := by
    intro limit
    have hcl : 1 ≤ clampedLimit limit ∧ clampedLimit limit ≤ 100 := by
      unfold clampedLimit
      split <;> [omega; skip]
      split <;> omega
    refine ⟨hcl.1, hcl.2, ?_⟩
    have heq : get_user_notifications col user_id processed limit skip =
        .ok (((sortByCreatedDesc (col.filter (fun (d : NotifDoc α) =>
          (d.user_id == oidOfString user_id) &&
            (match processed with
             | none => true
             | some b => d.processed == b)))).drop
          (clampedSkip skip).toNat).take (clampedLimit limit).toNat) := by
      simp [get_user_notifications, hvalid]
    refine ⟨_, heq, ?_⟩
    exact le_trans (List.length_take_le _ _) (by omega)
  refine ⟨hok, ?_, ?_⟩
  · have h0 : clampedLimit 0 = clampedLimit 50 := by decide
    unfold get_user_notifications
    rw [h0]
  · obtain ⟨-, -, res, hres, hlen⟩ := hok 200
    exact ⟨res, hres, hlen⟩

/-- Witness for `list_for_user_limit_clamped` on an empty collection with
a concrete valid user id. -/
theorem list_for_user_limit_clamped_witness :
    get_user_notifications ([] : List (NotifDoc Unit))
      ("000000000000000000000001") none 0 0 =
    get_user_notifications ([] : List (NotifDoc Unit))
      ("000000000000000000000001") none 50 0 :=
  (list_for_user_limit_clamped ([] : List (NotifDoc Unit))
    ("000000000000000000000001") none 0 (by decide)).2.1

/-- `WebhookService.mark_as_processed(notification_id)`: validates the
id, `$set`s `processed = true` and `processed_at = now` on the matching
notification, and returns whether `modified_count > 0`. -/
def mark_as_processed {α : Type} [DecidableEq α] (col : List (NotifDoc α))
    (notification_id : String) (now : Nat) :
    Except ValueErr (Bool × List (NotifDoc α)) :=
  if isValidObjectId notification_id = false then
    .error ⟨("Invalid ObjectId: ") ++ notification_id⟩
  else
    let r := mongoUpdateFirst (fun d => d._id == oidOfString notification_id)
      (fun d => { d with processed := true, processed_at := some now }) col
    .ok (decide (0 < r.1), r.2)

/-- The `mark_notification_processed` route handler
(`app/routes/webhooks.py`, lines 549-612): it awaits
`mark_as_processed` but discards its boolean result, answering
`{"message": "Notification marked as processed"}` with 200 regardless; a
`ValueError` from the service (structurally invalid id) is caught and
turned into a 404 "Notification not found". -/
def mark_notification_processed {α : Type} [DecidableEq α]
    (col : List (NotifDoc α)) (notification_id : String) (now : Nat) :
    Except HTTPEx (String × List (NotifDoc α)) :=
  match mark_as_processed col notification_id now with
  | .error _ => .error ⟨404, ("Notification not found"), []⟩
  | .ok (_, col1) => .ok (("Notification marked as processed"), col1)

/-- C10: for every structurally valid notification id the route answers
200 "Notification marked as processed", even when no notification with
that id exists (in which case the service returned false and left the
collection unchanged — the handler ignores the boolean); the route
answers 404 exactly when the id string is not a valid internal id. -/
theorem mark_processed_ignores_service_result {α : Type} [DecidableEq α]
    (col : List (NotifDoc α)) (notification_id : String) (now : Nat) :
    (isValidObjectId notification_id = true →
      ∃ col1, mark_notification_processed col notification_id now
        = .ok (("Notification marked as processed"), col1)) ∧
    (isValidObjectId notification_id = true →
      (∀ d ∈ col, d._id ≠ oidOfString notification_id) →
      mark_as_processed col notification_id now = .ok (false, col) ∧
      mark_notification_processed col notification_id now
        = .ok (("Notification marked as processed"), col)) ∧
    (isValidObjectId notification_id = false →
      mark_notification_processed col notification_id now
        = .error ⟨404, ("Notification not found"), []⟩) := by
  refine ⟨?_, ?_, ?_⟩
  · intro hvalid
    refine ⟨(mongoUpdateFirst (fun d => d._id == oidOfString notification_id)
      (fun d => { d with processed := true, processed_at := some now }) col).2, ?_⟩
    simp [mark_notification_processed, mark_as_processed, hvalid]
  · intro hvalid habs
    have h0 := mongoUpdateFirst_nomatch
      (fun d : NotifDoc α => d._id == oidOfString notification_id)
      (fun d => { d with processed := true, processed_at := some now })
      col (fun x hx => by simp [habs x hx])
    constructor
    · simp [mark_as_processed, hvalid, h0]
    · simp [mark_notification_processed, mark_as_processed, hvalid, h0]
  · intro hinvalid
    simp [mark_notification_processed, mark_as_processed, hinvalid]

/-- Witness for `mark_processed_ignores_service_result`: an empty
collection with a well-formed id that matches nothing still yields the
success message, and a malformed id yields the 404. -/
theorem mark_processed_ignores_service_result_witness :
    (mark_as_processed ([] : List (NotifDoc Unit)) ("000000000000000000000001") 3
        = .ok (false, []) ∧
      mark_notification_processed ([] : List (NotifDoc Unit))
        ("000000000000000000000001") 3
        = .ok (("Notification marked as processed"), [])) ∧
    mark_notification_processed ([] : List (NotifDoc Unit)) ("zz") 3
      = .error ⟨404, ("Notification not found"), []⟩ :=
  ⟨(mark_processed_ignores_service_result ([] : List (NotifDoc Unit))
      ("000000000000000000000001") 3).2.1 (by decide) (by simp),
   (mark_processed_ignores_service_result ([] : List (NotifDoc Unit))
      ("zz") 3).2.2 (by decide)⟩

/-! ## The inbound webhook route (`app/routes/webhooks.py`, `github_webhook`)

`json.loads` over the raw body is an external collaborator; the handler
only reads `payload["repository"]["full_name"]`,
`payload["repository"]["owner"]["login"]` and `payload.get("action")`,
so the parser is modelled as a function from the body bytes to that view
(`none` standing for a `JSONDecodeError`). -/

/-- The fields of the parsed JSON body that the handler reads, plus the
raw document that gets stored. -/
structure ParsedPayload (α : Type) where
  full_name : Option String
  owner_login : Option String
  action : Option String
  raw : α

/-- Python truthiness of an optional string: `None` and `""` are falsy. -/
def pyTruthy : Option String → Bool
  | none => false
  | some s => s != ("")

/-- `UserService.get_user_by_username`: empty username short-circuits to
`None`, otherwise `find_one({"username": username})`. -/
def get_user_by_username (col : List UserDoc) (username : String) :
    Option UserDoc :=
  if username == ("") then none
  else col.find? (fun d => d.username == username)

/-- `WebhookService.create_notification(user_id, repository, event_type,
action, payload)`: validates that `repository` and `event_type` are
non-empty (the handler can pass `repository = None` through), inserts a
document with `processed = false` and `created_at = now`, and returns it.
`freshOid` stands for the ObjectId MongoDB assigns on insert; `user_id`
is already an ObjectId by construction here, so that check cannot fire. -/
def create_notification {α : Type} (col : List (NotifDoc α)) (user_id : Nat)
    (repository : Option String) (event_type : String) (action : Option String)
    (payload : α) (now : Nat) (freshOid : Nat) :
    Except ValueErr (NotifDoc α × List (NotifDoc α)) :=
  if pyTruthy repository = false then
    .error ⟨("repository must be a non-empty string")⟩
  else if event_type == ("") then
    .error ⟨("event_type must be a non-empty string")⟩
  else
    let d : NotifDoc α :=
      { _id := freshOid, user_id := user_id, repository := repository.getD (""),
        event_type := event_type, action := action, payload := payload,
        processed := false, created_at := now, processed_at := none }
    .ok (d, col ++ [d])

/-- The acknowledgement dict returned by the `github_webhook` handler. -/
structure WebhookAck where
  message : String
  event : Option String
  repository : Option String
  action : Option String
deriving DecidableEq, Repr

/-- Embedding of the `github_webhook` handler (`app/routes/webhooks.py`,
lines 47-157): read the raw body, verify the signature (401 on failure,
before any parsing), parse JSON (400 on failure), answer an "ignored"
200 when the repository owner is missing or unknown locally, otherwise
store a notification; a `ValueError` escaping `create_notification` is
caught by the generic handler as a 500. -/
def github_webhook {α : Type} (parse : List Byte → Option (ParsedPayload α))
    (secret : List Byte) (users : List UserDoc) (notifs : List (NotifDoc α))
    (body : List Byte) (x_github_event : String)
    (x_hub_signature_256 : Option String) (now freshOid : Nat) :
    Except HTTPEx (WebhookAck × List (NotifDoc α)) :=
  if verify_github_signature secret body x_hub_signature_256 = false then
    .error ⟨401, ("Invalid webhook signature"), []⟩
  else
    match parse body with
    | none => .error ⟨400, ("Invalid JSON payload"), []⟩
    | some payload =>
      if pyTruthy payload.owner_login = false then
        .ok (⟨("Repository owner not found, webhook ignored"), none, none, none⟩, notifs)
      else
        match get_user_by_username users (payload.owner_login.getD ("")) with
        | none => .ok (⟨("User not found, webhook ignored"), none, none, none⟩, notifs)
        | some user =>
          match create_notification notifs user._id payload.full_name x_github_event
              payload.action payload.raw now freshOid with
          | .error _ => .error ⟨500, ("Failed to process webhook"), []⟩
          | .ok (_, notifs1) =>
            .ok (⟨("Webhook received successfully"), some x_github_event,
              payload.full_name, payload.action⟩, notifs1)

/-- C9: a request whose signature does not verify is rejected 401 before
the body is parsed (the outcome does not depend on the parser at all),
and a request whose signature verifies but whose repository owner matches
no locally stored user is answered 200 with the "User not found, webhook
ignored" message — never an error — leaving the stored notifications
untouched. -/
theorem inbound_webhook_unknown_user_ignored {α : Type}
    (parse : List Byte → Option (ParsedPayload α))
    (secret : List Byte) (users : List UserDoc) (notifs : List (NotifDoc α))
    (body : List Byte) (x_github_event : String)
    (x_hub_signature_256 : Option String) (now freshOid : Nat) :
    (verify_github_signature secret body x_hub_signature_256 = false →
      github_webhook parse secret users notifs body x_github_event
        x_hub_signature_256 now freshOid
        = .error ⟨401, ("Invalid webhook signature"), []⟩) ∧
    (∀ payload : ParsedPayload α,
      verify_github_signature secret body x_hub_signature_256 = true →
      parse body = some payload →
      pyTruthy payload.owner_login = true →
      get_user_by_username users (payload.owner_login.getD ("")) = none →
      github_webhook parse secret users notifs body x_github_event
        x_hub_signature_256 now freshOid
        = .ok (⟨("User not found, webhook ignored"), none, none, none⟩, notifs)) := by
  constructor
  · intro hbad
    simp [github_webhook, hbad]
  · intro payload hsig hparse howner huser
    simp [github_webhook, hsig, hparse, howner, huser]

/-- Witness for `inbound_webhook_unknown_user_ignored`: an empty user
store, an empty body correctly signed with the empty secret, and a parsed
owner "bob" that matches no local user. -/
theorem inbound_webhook_unknown_user_ignored_witness :
    github_webhook (fun _ => some (⟨none, some ("bob"), none, ()⟩ : ParsedPayload Unit))
      [] [] [] [] ("push") (some (("sha256=") ++ hmacSha256Hex [] [])) 0 0
      = .ok (⟨("User not found, webhook ignored"), none, none, none⟩, []) :=
  (inbound_webhook_unknown_user_ignored
      (fun _ => some (⟨none, some ("bob"), none, ()⟩ : ParsedPayload Unit))
      [] [] [] [] ("push") (some (("sha256=") ++ hmacSha256Hex [] [])) 0 0).2
    ⟨none, some ("bob"), none, ()⟩ (by decide) rfl (by decide) rfl
